import Mathlib

/-!
Verification of the galaxy random-forest notebook (`random_forest.ipynb`).

The notebook's own code is: feature assembly (`generate_features_targets`),
an accuracy computation (`calculate_accuracy`), a confusion-matrix plotting
helper (`plot_confusion_matrix`), a wrapper around the library classifier
(`rf_predict_actual`), and a `__main__` script.  We embed each of these
shallowly: numeric values become `Rat`, numpy arrays become lists, the
script's effects become an explicit event trace, and Python's fallible
operations become `Except`.
-/

namespace GalaxyRF

/-- A record of the structured numpy array `galaxy_catalogue.npy`.
The fields are exactly the columns the notebook reads from `data`:
the four colour indices, the eccentricity, the five fourth adaptive
moments, the six Petrosian radii and the `class` column (`cls` here,
since `class` is reserved). -/
structure Row where
  u_g : Rat
  g_r : Rat
  r_i : Rat
  i_z : Rat
  ecc : Rat
  m4_u : Rat
  m4_g : Rat
  m4_r : Rat
  m4_i : Rat
  m4_z : Rat
  petroR50_u : Rat
  petroR90_u : Rat
  petroR50_r : Rat
  petroR90_r : Rat
  petroR50_z : Rat
  petroR90_z : Rat
  cls : String
deriving DecidableEq, Repr

instance : Inhabited Row :=
  ⟨⟨0, 0, 0, 0, 0, 0, 0, 0, 0, 0, 0, 0, 0, 0, 0, 0, ""⟩⟩

/-- Writing a Python string into a numpy `'<U20'` cell keeps only the
first 20 characters (code points); shorter strings are kept whole.
This models the assignment `output_targets[:] = data['class']` where
`output_targets` has dtype `'<U20'`. -/
def storeU20 (s : String) : String :=
  ⟨s.data.take 20⟩

/-- The 13-entry feature vector one row of `input_features` receives in
`generate_features_targets`: columns 0-3 the colour indices, column 4 the
eccentricity, columns 5-9 the fourth moments, columns 10-12 the
concentrations `petroR50_b / petroR90_b` for bands u, r, z. -/
def featureRow (r : Row) : List Rat :=
  [r.u_g, r.g_r, r.r_i, r.i_z, r.ecc,
   r.m4_u, r.m4_g, r.m4_r, r.m4_i, r.m4_z,
   r.petroR50_u / r.petroR90_u,
   r.petroR50_r / r.petroR90_r,
   r.petroR50_z / r.petroR90_z]

/-- `generate_features_targets(data)`: returns `(input_features,
output_targets)`, one 13-column feature row and one `'<U20'` class label
per input row. -/
def generate_features_targets (data : List Row) : List (List Rat) × List String :=
  (data.map featureRow, data.map (fun r => storeU20 r.cls))

/-- The elementwise-equality count `sum(actual_classes[:] == predicted_classes[:])`:
the number of aligned pairs whose two components are equal. -/
def countEqual (actual predicted : List String) : Nat :=
  (actual.zip predicted).countP (fun q => decide (q.1 = q.2))

/-- `calculate_accuracy(predicted_classes, actual_classes)`:
`sum(actual_classes[:] == predicted_classes[:]) / len(actual_classes)`. -/
def calculate_accuracy (predicted_classes actual_classes : List String) : Rat :=
  (countEqual actual_classes predicted_classes : Rat) / (actual_classes.length : Rat)

/-- The Python runtime errors the notebook can surface; the notebook itself
never catches any of them. -/
inductive PyError where
  | zeroDivision
  | fileNotFound (path : String)
  | keyError (key : String)
  | libraryError (msg : String)
deriving DecidableEq, Repr

/-- `calculate_accuracy` with Python's division semantics made explicit:
dividing by `len(actual_classes) = 0` raises `ZeroDivisionError`; otherwise
the quotient is returned. -/
def calculate_accuracyChecked (predicted_classes actual_classes : List String) :
    Except PyError Rat :=
  if actual_classes.length = 0 then
    .error .zeroDivision
  else
    .ok (calculate_accuracy predicted_classes actual_classes)

lemma countEqual_eq_countP_range (actual predicted : List String)
    (h : actual.length = predicted.length) :
    countEqual actual predicted =
      (List.range actual.length).countP
        (fun i => decide (actual.getD i "" = predicted.getD i "")) := by
  induction actual generalizing predicted with
  | nil => simp [countEqual]
  | cons x xs ih =>
    cases predicted with
    | nil => simp at h
    | cons y ys =>
      have h' : xs.length = ys.length := by simpa using h
      simp only [countEqual, List.zip_cons_cons, List.countP_cons,
        List.length_cons, List.range_succ_eq_map, List.countP_map]
      have := ih ys h'
      simp only [countEqual] at this
      simp only [this, Nat.add_comm]
      congr 1

/-- C1: for equal-length label sequences with `actual_classes` non-empty,
`calculate_accuracy` returns the number of positions at which
`actual_classes` and `predicted_classes` agree, divided by the length of
`actual_classes`. -/
theorem calculate_accuracy_fraction_of_equal
    (predicted_classes actual_classes : List String)
    (hlen : predicted_classes.length = actual_classes.length)
    (_hne : actual_classes ≠ []) :
    calculate_accuracy predicted_classes actual_classes =
      (((List.range actual_classes.length).countP
          (fun i => decide (actual_classes.getD i "" = predicted_classes.getD i ""))
        : Nat) : Rat) / (actual_classes.length : Rat) := by
  unfold calculate_accuracy
  rw [countEqual_eq_countP_range actual_classes predicted_classes hlen.symm]

/-- Witness for C1 at a concrete input: two of the three labels agree. -/
theorem calculate_accuracy_fraction_of_equal_witness :
    calculate_accuracy ["spiral", "merger", "spiral"] ["spiral", "elliptical", "spiral"] =
      (((List.range 3).countP
          (fun i => decide ((["spiral", "elliptical", "spiral"] : List String).getD i "" =
            (["spiral", "merger", "spiral"] : List String).getD i "")) : Nat) : Rat) / 3 := by
  have h := calculate_accuracy_fraction_of_equal
    ["spiral", "merger", "spiral"] ["spiral", "elliptical", "spiral"]
    (by decide) (by decide)
  simpa using h

/-- C8: `calculate_accuracy` has no guard on `len(actual_classes)`:
on the empty sequence the division raises `ZeroDivisionError`, and whenever
`actual_classes` is non-empty that error branch is unreachable and the
function returns the quotient. -/
theorem calculate_accuracy_division_guard :
    (∀ predicted_classes : List String,
        calculate_accuracyChecked predicted_classes [] = .error .zeroDivision) ∧
    (∀ predicted_classes actual_classes : List String, actual_classes ≠ [] →
        calculate_accuracyChecked predicted_classes actual_classes =
          .ok (calculate_accuracy predicted_classes actual_classes)) := by
  constructor
  · intro p
    rfl
  · intro p a h
    simp [calculate_accuracyChecked, List.length_eq_zero, h]

/-- Witness for C8: on a concrete non-empty input the checked function
returns the plain quotient. -/
theorem calculate_accuracy_division_guard_witness :
    calculate_accuracyChecked ["spiral"] ["merger"] =
      .ok (calculate_accuracy ["spiral"] ["merger"]) :=
  calculate_accuracy_division_guard.2 ["spiral"] ["merger"] (by decide)

/-- C10: the targets returned by `generate_features_targets` pass through
a `'<U20'` array: a class label of at most 20 characters comes back
unchanged, and a longer one is silently truncated to its first 20
characters. -/
theorem generate_features_targets_u20_truncation
    (data : List Row) (i : Nat) (h : i < data.length) :
    ((data.getD i default).cls.length ≤ 20 →
        (generate_features_targets data).2.getD i "" = (data.getD i default).cls) ∧
    (20 < (data.getD i default).cls.length →
        (generate_features_targets data).2.getD i "" =
          ⟨(data.getD i default).cls.data.take 20⟩ ∧
        ((generate_features_targets data).2.getD i "").length = 20) := by
  have hget : (generate_features_targets data).2.getD i "" =
      storeU20 (data.getD i default).cls := by
    simp [generate_features_targets, List.getD, List.getElem?_map,
      List.getElem?_eq_getElem h]
  constructor
  · intro hle
    rw [hget]
    have h2 : (data.getD i default).cls.data.take 20 = (data.getD i default).cls.data :=
      List.take_of_length_le hle
    show (⟨(data.getD i default).cls.data.take 20⟩ : String) = (data.getD i default).cls
    rw [h2]
  · intro hgt
    rw [hget]
    refine ⟨rfl, ?_⟩
    simp only [storeU20, String.length]
    exact List.length_take_of_le (Nat.le_of_lt hgt)

/-- A catalogue row whose class label has 24 characters. -/
def longLabelRow : Row :=
  ⟨0, 0, 0, 0, 0, 0, 0, 0, 0, 0, 0, 0, 0, 0, 0, 0, "abcdefghijklmnopqrstuvwx"⟩

/-- Witness for C10: a 24-character label is truncated to its first 20
characters. -/
theorem generate_features_targets_u20_truncation_witness :
    (generate_features_targets [longLabelRow]).2.getD 0 "" =
      ⟨("abcdefghijklmnopqrstuvwx" : String).data.take 20⟩ ∧
    ((generate_features_targets [longLabelRow]).2.getD 0 "").length = 20 :=
  (generate_features_targets_u20_truncation [longLabelRow] 0 (by decide)).2 (by decide)

/-- C2: `generate_features_targets` returns one 13-entry feature row per
input row, laid out as columns 0-3 the colour indices u-g, g-r, r-i, i-z,
column 4 the eccentricity, columns 5-9 the fourth moments m4_u .. m4_z and
columns 10-12 the concentrations petroR50_b / petroR90_b for b = u, r, z,
paired with one string class label per row taken from the `class` column. -/
theorem generate_features_targets_layout (data : List Row) (i : Nat)
    (h : i < data.length) :
    (generate_features_targets data).1.length = data.length ∧
    (generate_features_targets data).2.length = data.length ∧
    ((generate_features_targets data).1.getD i []).length = 13 ∧
    (generate_features_targets data).1.getD i [] =
      [(data.getD i default).u_g, (data.getD i default).g_r,
       (data.getD i default).r_i, (data.getD i default).i_z,
       (data.getD i default).ecc,
       (data.getD i default).m4_u, (data.getD i default).m4_g,
       (data.getD i default).m4_r, (data.getD i default).m4_i,
       (data.getD i default).m4_z,
       (data.getD i default).petroR50_u / (data.getD i default).petroR90_u,
       (data.getD i default).petroR50_r / (data.getD i default).petroR90_r,
       (data.getD i default).petroR50_z / (data.getD i default).petroR90_z] ∧
    (generate_features_targets data).2.getD i "" = storeU20 (data.getD i default).cls := by
  have h1 : (generate_features_targets data).1.getD i [] =
      featureRow (data.getD i default) := by
    simp [generate_features_targets, List.getD, List.getElem?_map,
      List.getElem?_eq_getElem h]
  have h2 : (generate_features_targets data).2.getD i "" =
      storeU20 (data.getD i default).cls := by
    simp [generate_features_targets, List.getD, List.getElem?_map,
      List.getElem?_eq_getElem h]
  refine ⟨by simp [generate_features_targets], by simp [generate_features_targets],
    ?_, ?_, h2⟩
  · rw [h1]; rfl
  · rw [h1]; rfl

/-- A concrete catalogue row used to instantiate the theorems. -/
def sampleRow : Row :=
  ⟨1, 2, 3, 4, 5, 6, 7, 8, 9, 10, 11, 12, 13, 14, 15, 16, "SPIRAL"⟩

/-- Witness for C2 on a one-row catalogue with distinct field values. -/
theorem generate_features_targets_layout_witness :
    (generate_features_targets [sampleRow]).1.getD 0 [] =
      [1, 2, 3, 4, 5, 6, 7, 8, 9, 10, 11 / 12, 13 / 14, 15 / 16] ∧
    (generate_features_targets [sampleRow]).2.getD 0 "" = "SPIRAL" := by
  have h := generate_features_targets_layout [sampleRow] 0 (by decide)
  refine ⟨?_, ?_⟩
  · rw [h.2.2.2.1]; simp [sampleRow]
  · rw [h.2.2.2.2]; decide

/-- The library call `confusion_matrix(y_true=actual, y_pred=predicted,
labels=class_labels)`, modelled from sklearn's documented semantics: entry
(i, j) is the number of samples whose true label is `labels[i]` and whose
predicted label is `labels[j]`. -/
def confusion_matrix (labels actual predicted : List String) : List (List Nat) :=
  labels.map (fun li =>
    labels.map (fun lj =>
      (actual.zip predicted).countP (fun q => decide (q.1 = li ∧ q.2 = lj))))

/-- C3: with `labels = list(set(actual))` (the distinct actual labels, here
`actual.dedup`) the confusion matrix is square of side the number of
distinct actual labels, and entry (i, j) counts the samples with true class
`labels[i]` and predicted class `labels[j]`. -/
theorem confusion_matrix_square (actual predicted : List String) (i j : Nat)
    (hi : i < actual.dedup.length) (hj : j < actual.dedup.length) :
    (confusion_matrix actual.dedup actual predicted).length = actual.toFinset.card ∧
    (∀ row ∈ confusion_matrix actual.dedup actual predicted,
        row.length = actual.toFinset.card) ∧
    ((confusion_matrix actual.dedup actual predicted).getD i []).getD j 0 =
      (actual.zip predicted).countP
        (fun q => decide (q.1 = actual.dedup.getD i "" ∧
                          q.2 = actual.dedup.getD j "")) := by
  have hcard : actual.toFinset.card = actual.dedup.length :=
    List.card_toFinset actual
  refine ⟨by simp [confusion_matrix, hcard], ?_, ?_⟩
  · intro row hrow
    rcases List.mem_map.mp hrow with ⟨li, _, rfl⟩
    simp [hcard]
  · have hrow : (confusion_matrix actual.dedup actual predicted).getD i [] =
        actual.dedup.map (fun lj =>
          (actual.zip predicted).countP
            (fun q => decide (q.1 = actual.dedup.getD i "" ∧ q.2 = lj))) := by
      simp [confusion_matrix, List.getD, List.getElem?_map,
        List.getElem?_eq_getElem hi]
    rw [hrow]
    simp [List.getD, List.getElem?_map, List.getElem?_eq_getElem hj]

/-- Witness for C3: three samples over two distinct labels give a 2 x 2
matrix whose (0, 1) entry counts the one sample with true class "a" and
predicted class "b". -/
theorem confusion_matrix_square_witness :
    (confusion_matrix (["a", "b", "a"] : List String).dedup
        ["a", "b", "a"] ["a", "a", "b"]).length = 2 ∧
    ((confusion_matrix (["a", "b", "a"] : List String).dedup
        ["a", "b", "a"] ["a", "a", "b"]).getD 0 []).getD 1 0 = 1 := by
  have h := confusion_matrix_square ["a", "b", "a"] ["a", "a", "b"] 0 1
    (by decide) (by decide)
  refine ⟨?_, ?_⟩
  · rw [h.1]; decide
  · rw [h.2.2]; decide

/-- The colour `plt.text` receives for a cell annotation. -/
inductive TextColor where
  | white
  | black
deriving DecidableEq, Repr

/-- One `plt.text(j, i, "{}".format(cm[i, j]), ..., color=...)` call:
`x` is the plot x-coordinate (the column index j), `y` the y-coordinate
(the row index i). -/
structure CellText where
  x : Nat
  y : Nat
  value : Rat
  color : TextColor
deriving DecidableEq, Repr

/-- `cm.shape[0]`: the number of rows of the matrix. -/
def shape0 (cm : List (List Rat)) : Nat := cm.length

/-- `cm.shape[1]`: the number of columns (numpy 2-D arrays are
rectangular, so this is the length of the first row). -/
def shape1 (cm : List (List Rat)) : Nat := (cm.getD 0 []).length

/-- `cm[i, j]` read with defaults outside the array bounds. -/
def entryD (cm : List (List Rat)) (i j : Nat) : Rat := (cm.getD i []).getD j 0

/-- `itertools.product(range(r), range(c))` in iteration order: all pairs
(i, j) with i ascending and, within a row, j ascending. -/
def prodIdx : Nat → Nat → List (Nat × Nat)
  | 0, _ => []
  | r + 1, c => prodIdx r c ++ (List.range c).map (fun j => (r, j))

/-- `cm.max()`: the greatest entry of the matrix (0 for an empty matrix,
a case numpy rejects and the loop never reaches). -/
def cmMax (cm : List (List Rat)) : Rat :=
  match cm.flatten with
  | [] => 0
  | x :: xs => xs.foldl max x

/-- The annotation loop of `plot_confusion_matrix`: for every (i, j) in
`itertools.product(range(cm.shape[0]), range(cm.shape[1]))` one text is
placed at plot position (j, i) showing `cm[i, j]`, white when
`cm[i, j] > cm.max() / 2` and black otherwise. -/
def annotateCells (cm : List (List Rat)) : List CellText :=
  (prodIdx (shape0 cm) (shape1 cm)).map (fun ij =>
    ⟨ij.2, ij.1, entryD cm ij.1 ij.2,
      if entryD cm ij.1 ij.2 > cmMax cm / 2 then .white else .black⟩)

/-- `cm.astype('float') / cm.sum(axis=1)[:, np.newaxis]`: each entry is
divided by the sum of its row. -/
def rowNormalize (cm : List (List Rat)) : List (List Rat) :=
  cm.map (fun row => row.map (fun v => v / row.sum))

/-- The observable output of `plot_confusion_matrix`: the matrix handed to
`plt.imshow`, the matrix handed to `print`, and the list of cell
annotations drawn by the loop. -/
structure PlotOutput where
  image : List (List Rat)
  printedMatrix : List (List Rat)
  texts : List CellText
deriving DecidableEq, Repr

/-- `plot_confusion_matrix(cm, classes, normalize, ...)`:
`plt.imshow(cm, ...)` runs first on the argument matrix; only then does the
`if normalize:` branch replace `cm` by its row-normalized version, and the
`print` and the annotation loop use the replaced matrix. -/
def plot_confusion_matrix (cm : List (List Rat)) (normalize : Bool) : PlotOutput :=
  let image := cm
  let cm2 := if normalize then rowNormalize cm else cm
  ⟨image, cm2, annotateCells cm2⟩

lemma prodIdx_length (r c : Nat) : (prodIdx r c).length = r * c := by
  induction r with
  | zero => simp [prodIdx]
  | succ r ih => simp [prodIdx, ih, Nat.succ_mul]

lemma mem_prodIdx {r c : Nat} {ij : Nat × Nat} (h : ij ∈ prodIdx r c) :
    ij.1 < r ∧ ij.2 < c := by
  induction r with
  | zero => simp [prodIdx] at h
  | succ r ih =>
    rw [prodIdx, List.mem_append] at h
    rcases h with h | h
    · exact ⟨Nat.lt_succ_of_lt (ih h).1, (ih h).2⟩
    · rcases List.mem_map.mp h with ⟨b, hb, rfl⟩
      exact ⟨Nat.lt_succ_self r, List.mem_range.mp hb⟩

lemma range_filter_beq (c j : Nat) (hj : j < c) :
    (List.range c).filter (fun b => b == j) = [j] := by
  induction c with
  | zero => omega
  | succ c ih =>
    rw [List.range_succ, List.filter_append]
    rcases Nat.lt_or_ge j c with h | h
    · rw [ih h]
      have hne : ¬ (c == j) = true := by simp; omega
      simp [hne]
    · have hje : j = c := by omega
      subst hje
      have hnil : (List.range j).filter (fun b => b == j) = [] := by
        refine List.filter_eq_nil_iff.mpr ?_
        intro a ha
        have := List.mem_range.mp ha
        simp
        omega
      simp [hnil]

lemma prodIdx_filter_cell (r c i j : Nat) (hi : i < r) (hj : j < c) :
    (prodIdx r c).filter (fun ij => ij.1 == i && ij.2 == j) = [(i, j)] := by
  induction r with
  | zero => omega
  | succ r ih =>
    rw [prodIdx, List.filter_append]
    rcases Nat.lt_or_ge i r with h | h
    · rw [ih h]
      have hrow : ((List.range c).map (fun b => (r, b))).filter
          (fun ij => ij.1 == i && ij.2 == j) = [] := by
        refine List.filter_eq_nil_iff.mpr ?_
        intro a ha
        rcases List.mem_map.mp ha with ⟨b, _, rfl⟩
        simp
        omega
      rw [hrow, List.append_nil]
    · have hie : i = r := by omega
      subst hie
      have hleft : (prodIdx i c).filter (fun ij => ij.1 == i && ij.2 == j) = [] := by
        refine List.filter_eq_nil_iff.mpr ?_
        intro a ha
        have hlt := (mem_prodIdx ha).1
        simp
        omega
      rw [hleft, List.nil_append, List.filter_map]
      have hcomp : ((fun ij : Nat × Nat => ij.1 == i && ij.2 == j) ∘
          fun b => (i, b)) = fun b => b == j := by
        funext b
        simp
      rw [hcomp, range_filter_beq c j hj]
      rfl

lemma annotateCells_cell (cm : List (List Rat)) (i j : Nat)
    (hi : i < shape0 cm) (hj : j < shape1 cm) :
    (annotateCells cm).filter (fun t => t.y == i && t.x == j) =
      [⟨j, i, entryD cm i j,
        if entryD cm i j > cmMax cm / 2 then .white else .black⟩] := by
  unfold annotateCells
  rw [List.filter_map]
  have hcomp : ((fun t : CellText => t.y == i && t.x == j) ∘
      fun ij : Nat × Nat =>
        (⟨ij.2, ij.1, entryD cm ij.1 ij.2,
          if entryD cm ij.1 ij.2 > cmMax cm / 2 then .white else .black⟩ : CellText)) =
      fun ij : Nat × Nat => ij.1 == i && ij.2 == j := rfl
  rw [hcomp, prodIdx_filter_cell (shape0 cm) (shape1 cm) i j hi hj]
  rfl

/-- C5: the annotation loop of `plot_confusion_matrix` visits the full
Cartesian product of row and column indices of the (post-branch) matrix and
places exactly one text on each cell (i, j), showing `cm[i, j]`, white when
`cm[i, j] > cm.max() / 2` and black otherwise. -/
theorem plot_confusion_matrix_annotates_cells (cm : List (List Rat)) (b : Bool)
    (i j : Nat)
    (hi : i < shape0 (plot_confusion_matrix cm b).printedMatrix)
    (hj : j < shape1 (plot_confusion_matrix cm b).printedMatrix) :
    (plot_confusion_matrix cm b).texts.length =
      shape0 (plot_confusion_matrix cm b).printedMatrix *
        shape1 (plot_confusion_matrix cm b).printedMatrix ∧
    (plot_confusion_matrix cm b).texts.filter (fun t => t.y == i && t.x == j) =
      [⟨j, i, entryD (plot_confusion_matrix cm b).printedMatrix i j,
        if entryD (plot_confusion_matrix cm b).printedMatrix i j >
            cmMax (plot_confusion_matrix cm b).printedMatrix / 2
        then TextColor.white else TextColor.black⟩] := by
  have htexts : (plot_confusion_matrix cm b).texts =
      annotateCells (plot_confusion_matrix cm b).printedMatrix := rfl
  rw [htexts]
  exact ⟨by simp [annotateCells, prodIdx_length],
    annotateCells_cell _ i j hi hj⟩

/-- Witness for C5: a 2 x 2 matrix gets 4 annotations, and the cell (0, 1)
holding the maximal value 2 gets exactly one white annotation. -/
theorem plot_confusion_matrix_annotates_cells_witness :
    (plot_confusion_matrix [[(0 : Rat), 2], [1, 2]] false).texts.length = 4 ∧
    (plot_confusion_matrix [[(0 : Rat), 2], [1, 2]] false).texts.filter
        (fun t => t.y == 0 && t.x == 1) =
      [⟨1, 0, 2, TextColor.white⟩] := by
  have h := plot_confusion_matrix_annotates_cells [[(0 : Rat), 2], [1, 2]] false 0 1
    (by decide) (by decide)
  refine ⟨by rw [h.1]; decide, ?_⟩
  rw [h.2]
  have hval : entryD (plot_confusion_matrix [[(0 : Rat), 2], [1, 2]] false).printedMatrix
      0 1 = 2 := rfl
  have hmax : cmMax (plot_confusion_matrix [[(0 : Rat), 2], [1, 2]] false).printedMatrix
      = 2 := by
    show cmMax [[(0 : Rat), 2], [1, 2]] = 2
    simp [cmMax]
  rw [hval, hmax]
  rw [if_pos (by norm_num : (2 : Rat) > 2 / 2)]

/-- C9: with `normalize=True` the heatmap image is rendered from the raw
matrix (`plt.imshow` runs before the normalization branch) while the
printed matrix and the per-cell annotations use the row-normalized values,
so a cell whose normalized value differs from its raw value is annotated
with a value different from the one the image shows there. -/
theorem plot_confusion_matrix_normalize_mismatch (cm : List (List Rat)) (i j : Nat)
    (hi : i < shape0 (rowNormalize cm)) (hj : j < shape1 (rowNormalize cm))
    (hne : entryD (rowNormalize cm) i j ≠ entryD cm i j) :
    (plot_confusion_matrix cm true).image = cm ∧
    (plot_confusion_matrix cm true).printedMatrix = rowNormalize cm ∧
    (plot_confusion_matrix cm true).texts.filter (fun t => t.y == i && t.x == j) =
      [⟨j, i, entryD (rowNormalize cm) i j,
        if entryD (rowNormalize cm) i j > cmMax (rowNormalize cm) / 2
        then TextColor.white else TextColor.black⟩] ∧
    ∀ t ∈ (plot_confusion_matrix cm true).texts.filter
        (fun t => t.y == i && t.x == j),
      t.value ≠ entryD (plot_confusion_matrix cm true).image i j := by
  have htexts : (plot_confusion_matrix cm true).texts =
      annotateCells (rowNormalize cm) := rfl
  have hcell := annotateCells_cell (rowNormalize cm) i j hi hj
  refine ⟨rfl, rfl, by rw [htexts]; exact hcell, ?_⟩
  intro t ht
  rw [htexts, hcell] at ht
  rcases List.mem_singleton.mp ht with rfl
  exact hne

/-- Witness for C9: on the one-row matrix [[1, 3]] the image keeps the raw
values while the printed matrix is the normalized one. -/
theorem plot_confusion_matrix_normalize_mismatch_witness :
    (plot_confusion_matrix [[(1 : Rat), 3]] true).image = [[(1 : Rat), 3]] ∧
    (plot_confusion_matrix [[(1 : Rat), 3]] true).printedMatrix =
      rowNormalize [[(1 : Rat), 3]] := by
  have h := plot_confusion_matrix_normalize_mismatch [[(1 : Rat), 3]] 0 0
    (by decide) (by decide) (by norm_num [entryD, rowNormalize])
  exact ⟨h.1, h.2.1⟩

/-- The steps the `__main__` script performs, in the order its statements
execute. -/
inductive Step where
  | loadData (file : String)
  | buildFeatures
  | instantiateClassifier (nEstimators : Nat)
  | crossValPredict (folds : Nat)
  | computeAccuracy
  | computeConfusionMatrix
  | plotConfusion
deriving DecidableEq, Repr

/-- `rf_predict_actual(data, n_estimators)`: builds features and targets,
instantiates `RandomForestClassifier(n_estimators=n_estimators)`, and runs
`cross_val_predict(rfc, features, targets, cv=10)`.  The library
cross-validator is nondeterministic, so its result is an oracle argument;
the first component records the steps taken in order. -/
def rf_predict_actual (data : List Row)
    (crossValOracle : List (List Rat) → List String → List String)
    (nEstimators : Nat) : List Step × List String × List String :=
  let ft := generate_features_targets data
  ([.buildFeatures, .instantiateClassifier nEstimators, .crossValPredict 10],
   crossValOracle ft.1 ft.2, ft.2)

/-- The `__main__` block: `np.load('galaxy_catalogue.npy')`, then
`rf_predict_actual(data, 50)`, then `calculate_accuracy(predicted, actual)`,
then `confusion_matrix(..., labels=list(set(actual)))`, then the plot.
Returns the ordered step trace, the accuracy and the confusion matrix. -/
def mainRun (data : List Row)
    (crossValOracle : List (List Rat) → List String → List String) :
    List Step × Rat × List (List Nat) :=
  let pa := rf_predict_actual data crossValOracle 50
  let predicted := pa.2.1
  let actual := pa.2.2
  let accuracy := calculate_accuracy predicted actual
  let class_labels := actual.dedup
  let model_cm := confusion_matrix class_labels actual predicted
  (.loadData "galaxy_catalogue.npy" :: pa.1 ++
     [.computeAccuracy, .computeConfusionMatrix, .plotConfusion],
   accuracy, model_cm)

/-- C4: the main script performs exactly load, build features, instantiate
the classifier (50 trees), 10-fold cross-validated prediction, accuracy,
confusion matrix, plot — in this order — and its accuracy and confusion
matrix are computed from the predictions and targets of the earlier
steps. -/
theorem mainRun_step_order (data : List Row)
    (crossValOracle : List (List Rat) → List String → List String) :
    (mainRun data crossValOracle).1 =
      [.loadData "galaxy_catalogue.npy", .buildFeatures,
       .instantiateClassifier 50, .crossValPredict 10,
       .computeAccuracy, .computeConfusionMatrix, .plotConfusion] ∧
    (mainRun data crossValOracle).2.1 =
      calculate_accuracy
        (crossValOracle (generate_features_targets data).1
          (generate_features_targets data).2)
        (generate_features_targets data).2 ∧
    (mainRun data crossValOracle).2.2 =
      confusion_matrix (generate_features_targets data).2.dedup
        (generate_features_targets data).2
        (crossValOracle (generate_features_targets data).1
          (generate_features_targets data).2) :=
  ⟨rfl, rfl, rfl⟩

/-- The kinds of external interaction a run of the script could have. -/
inductive Effect where
  | readFile (path : String)
  | consolePrint
  | renderPlot
  | writeFile (path : String)
  | networkOpen (host : String)
  | persistState
deriving DecidableEq, Repr

/-- The external interactions of the `__main__` block in order:
`np.load('galaxy_catalogue.npy')` reads the one input file;
`print("Accuracy score:", ...)` writes to the console;
`plot_confusion_matrix` prints its header line and the matrix;
`plt.show()` renders the static plot.  No statement of the notebook writes
a file, opens a network connection or persists state. -/
def main_effects : List Effect :=
  [.readFile "galaxy_catalogue.npy", .consolePrint, .consolePrint,
   .consolePrint, .renderPlot]

/-- C7: every external interaction of the script is a read of
`galaxy_catalogue.npy`, a console print, or the rendering of the plot; no
interaction writes a file, opens a network connection or persists
state. -/
theorem main_effects_only_read_print_plot :
    (∀ e ∈ main_effects,
        e = .readFile "galaxy_catalogue.npy" ∨ e = .consolePrint ∨
          e = .renderPlot) ∧
    (∀ p, Effect.writeFile p ∉ main_effects) ∧
    (∀ h, Effect.networkOpen h ∉ main_effects) ∧
    Effect.persistState ∉ main_effects := by
  refine ⟨by decide, ?_, ?_, by decide⟩
  · intro p
    simp [main_effects]
  · intro h
    simp [main_effects]

/-- Witness for C7 at the first effect of the trace. -/
theorem main_effects_only_read_print_plot_witness :
    Effect.readFile "galaxy_catalogue.npy" =
        Effect.readFile "galaxy_catalogue.npy" ∨
      Effect.readFile "galaxy_catalogue.npy" = Effect.consolePrint ∨
      Effect.readFile "galaxy_catalogue.npy" = Effect.renderPlot :=
  main_effects_only_read_print_plot.1
    (Effect.readFile "galaxy_catalogue.npy") (by decide)

/-- The `__main__` pipeline with Python's fallible operations explicit:
`np.load` may fail (missing file, malformed array), the library
cross-validator may fail (malformed input), and the accuracy division may
fail; the notebook contains no `try`/`except`, so each stage's error is
passed through unchanged by `Except.bind`. -/
def mainExc (loadResult : Except PyError (List Row))
    (crossVal : List (List Rat) → List String → Except PyError (List String)) :
    Except PyError (Rat × List (List Nat)) := do
  let data ← loadResult
  let ft := generate_features_targets data
  let predicted ← crossVal ft.1 ft.2
  let actual := ft.2
  let accuracy ← calculate_accuracyChecked predicted actual
  pure (accuracy, confusion_matrix actual.dedup actual predicted)

lemma mainExc_ok (data : List Row)
    (crossVal : List (List Rat) → List String → Except PyError (List String)) :
    mainExc (.ok data) crossVal =
      Except.bind (crossVal (generate_features_targets data).1
          (generate_features_targets data).2)
        (fun predicted =>
          (fun a => (a, confusion_matrix (generate_features_targets data).2.dedup
              (generate_features_targets data).2 predicted)) <$>
            calculate_accuracyChecked predicted
              (generate_features_targets data).2) := rfl

/-- C6: no function of the notebook catches or transforms an exception: an
error raised while loading the data, while cross-validating, or by the
accuracy division reaches the caller unchanged. -/
theorem notebook_propagates_errors :
    (∀ (e : PyError) crossVal, mainExc (.error e) crossVal = .error e) ∧
    (∀ data crossVal (e : PyError),
        crossVal (generate_features_targets data).1
            (generate_features_targets data).2 = .error e →
        mainExc (.ok data) crossVal = .error e) ∧
    (∀ data crossVal predicted,
        crossVal (generate_features_targets data).1
            (generate_features_targets data).2 = .ok predicted →
        calculate_accuracyChecked predicted (generate_features_targets data).2 =
          .error .zeroDivision →
        mainExc (.ok data) crossVal = .error .zeroDivision) := by
  refine ⟨fun e c => rfl, ?_, ?_⟩
  · intro data c e h
    rw [mainExc_ok, h]
    rfl
  · intro data c p h1 h2
    rw [mainExc_ok, h1]
    show (fun a => (a, confusion_matrix (generate_features_targets data).2.dedup
        (generate_features_targets data).2 p)) <$>
        calculate_accuracyChecked p (generate_features_targets data).2 =
      Except.error PyError.zeroDivision
    rw [h2]
    rfl

/-- Witness for C6: a failing cross-validation stage surfaces its own error
from the whole pipeline. -/
theorem notebook_propagates_errors_witness :
    mainExc (.ok ([] : List Row))
        (fun _ _ => .error (.libraryError "cross_val_predict")) =
      .error (.libraryError "cross_val_predict") :=
  notebook_propagates_errors.2.1 []
    (fun _ _ => .error (.libraryError "cross_val_predict"))
    (.libraryError "cross_val_predict") rfl

end GalaxyRF
